import Mathlib

/-!
Shallow embedding of the core of the `ai-powered-wargame-scenario-researcher`
repository: the scenario data model (`engine/models.py`, `config.py`), the
consistency validator (`engine/validator.py`), the generation retry loop
(`engine/ai_handler.py`, `fetch_scenario`), session navigation
(`utils/state_manager.py`) and the JSON (de)serialization of scenarios
(pydantic `model_dump_json` / `model_validate_json` as used by `app.py`).

Machine integers are modelled as `Int` (Python ints are unbounded).
Python floats appear only in the validator's speed check
(`math.sqrt(dx**2+dy**2) > 3.0`) and in the 2-decimal formatting of the
distance; the comparison is modelled exactly as `dx^2+dy^2 > 9` (IEEE sqrt
is monotone and exact on perfect squares, so the two are equivalent for
integer squared distances), and the formatting is modelled as rounding the
real square root to the nearest hundredth (`fmtDist2`).
-/

namespace Wargame

/-- Terrain code `config.TerrainType.OPEN.value`. -/
def OPEN : Int := 0

/-- Terrain code `config.TerrainType.WATER.value`. -/
def WATER : Int := 1

/-- Terrain code `config.TerrainType.URBAN.value`. -/
def URBAN : Int := 2

/-- Terrain code `config.TerrainType.FOREST.value`. -/
def FOREST : Int := 3

/-- `config.UnitSide`: string enum with values "Blue" and "Red". -/
inductive UnitSide where
  | blue
  | red
deriving DecidableEq

/-- The string value of a `UnitSide` member. -/
def UnitSide.toStr : UnitSide → String
  | .blue => "Blue"
  | .red => "Red"

/-- `engine/models.py` `Unit`: pydantic model with fields
`unit_id, side, type, x, y, health, range, status`.  Field constraints
(`ge=0` on x/y/health, `le=100` on health, `ge=1` on range) are enforced at
construction by `mkUnit` below, not by this structure. -/
structure Unit where
  unit_id : String
  side : UnitSide
  type : String
  x : Int
  y : Int
  health : Int
  range : Int
  status : String
deriving DecidableEq

/-- The pydantic field constraints of `Unit`:
`x ≥ 0`, `y ≥ 0`, `0 ≤ health ≤ 100`, `range ≥ 1`. -/
def validUnit (u : Unit) : Bool :=
  decide (0 ≤ u.x) && decide (0 ≤ u.y) &&
  decide (0 ≤ u.health) && decide (u.health ≤ 100) &&
  decide (1 ≤ u.range)

/-- Construction / field validation of `engine/models.py` `Unit`: pydantic
validates the field constraints on `__init__` and on `model_validate`,
raising `ValidationError` (here: `none`) when a constraint fails. -/
def mkUnit (unit_id : String) (side : UnitSide) (type : String)
    (x y health range : Int) (status : String) : Option Unit :=
  let u : Unit := ⟨unit_id, side, type, x, y, health, range, status⟩
  if validUnit u then some u else none

/-- `engine/models.py` `CombatEvent.action_type`:
`Literal["Move","Fire","Suppression","Retreat","Reinforce","Intel"]`. -/
inductive ActionType where
  | move
  | fire
  | suppression
  | retreat
  | reinforce
  | intel
deriving DecidableEq

/-- The string value of an `ActionType`. -/
def ActionType.toStr : ActionType → String
  | .move => "Move"
  | .fire => "Fire"
  | .suppression => "Suppression"
  | .retreat => "Retreat"
  | .reinforce => "Reinforce"
  | .intel => "Intel"

/-- `engine/models.py` `CombatEvent`. -/
structure CombatEvent where
  source_unit_id : String
  target_unit_id : Option String
  action_type : ActionType
  details : String
  outcome : Option String
deriving DecidableEq

/-- `engine/models.py` `Frame`. -/
structure Frame where
  frame_description : String
  unit_positions : List Unit
  combat_log : List CombatEvent
  validation_errors : List String
deriving DecidableEq

/-- `engine/models.py` `WargameScenario`. -/
structure WargameScenario where
  terrain_map : List (List Int)
  frames : List Frame
deriving DecidableEq

/-! ### Python dictionary and list-indexing primitives -/

/-- Python `list[i]`: non-negative indices index from the front, negative
indices from the back, anything else raises `IndexError` (here: `none`). -/
def pyIndex {α : Type} (l : List α) (i : Int) : Option α :=
  if 0 ≤ i then l.get? i.toNat
  else if 0 ≤ i + l.length then l.get? (i + l.length).toNat else none

/-- Python `dict` insertion `d[k] = v`: replaces the value in place when the
key is present (keeping its position), otherwise appends the pair. -/
def dictUpd : List (String × Unit) → String → Unit → List (String × Unit)
  | [], k, v => [(k, v)]
  | (k0, v0) :: rest, k, v =>
      if k0 = k then (k0, v) :: rest else (k0, v0) :: dictUpd rest k v

/-- Python `dict` lookup (first, hence unique, occurrence of the key). -/
def dlookup : List (String × Unit) → String → Option Unit
  | [], _ => none
  | (k0, v0) :: rest, k => if k0 = k then some v0 else dlookup rest k

/-- `validator.py` line 22: `{u.unit_id: u for u in frame.unit_positions}` —
a Python dict comprehension, insertion-ordered with later duplicates
overwriting the stored value but keeping the original key position. -/
def buildDict (us : List Unit) : List (String × Unit) :=
  us.foldl (fun d u => dictUpd d u.unit_id u) []

/-! ### The validator (`engine/validator.py`, `validate_scenario`) -/

/-- `validator.py` line 16: `map_height = len(scenario.terrain_map)`. -/
def mapHeight (t : List (List Int)) : Nat := t.length

/-- `validator.py` line 17:
`map_width = len(scenario.terrain_map[0]) if map_height > 0 else 0`. -/
def mapWidth (t : List (List Int)) : Nat :=
  match t with
  | [] => 0
  | row :: _ => row.length

/-- `validator.py` line 28 message:
`f"Unit {unit.unit_id} out of bounds ({unit.x}, {unit.y})"`. -/
def oobMsg (u : Unit) : String :=
  "Unit " ++ u.unit_id ++ " out of bounds (" ++ toString u.x ++ ", " ++ toString u.y ++ ")"

/-- `validator.py` line 35 message:
`f"Unit {unit.unit_id} is in Water at ({unit.x}, {unit.y})"`. -/
def waterMsg (u : Unit) : String :=
  "Unit " ++ u.unit_id ++ " is in Water at (" ++ toString u.x ++ ", " ++ toString u.y ++ ")"

/-- Python `f"{math.sqrt d2:.2f}"` for a non-negative integer squared
distance `d2`: the real square root of `d2` rounded to the nearest
hundredth (ties cannot occur for integer `d2`), rendered with exactly two
fractional digits.  `100*sqrt(d2) = sqrt(10000*d2)`, whose nearest integer
is `k = Nat.sqrt N` when `N ≤ k*k + k` (i.e. `sqrt N ≤ k + 1/2`) and `k+1`
otherwise. -/
def fmtDist2 (d2 : Nat) : String :=
  let N := 10000 * d2
  let k := Nat.sqrt N
  let r := if N ≤ k * k + k then k else k + 1
  toString (r / 100) ++ "." ++
    (if r % 100 < 10 then "0" ++ toString (r % 100) else toString (r % 100))

/-- `validator.py` line 49 message:
`f"Unit {unit.unit_id} moved too fast ({dist:.2f} tiles)"`. -/
def tooFastMsg (uid : String) (d2 : Nat) : String :=
  "Unit " ++ uid ++ " moved too fast (" ++ fmtDist2 d2 ++ " tiles)"

/-- `validator.py` line 44 squared distance:
`(unit.x - prev.x)**2 + (unit.y - prev.y)**2`. -/
def sqDist (a b : Unit) : Int := (a.x - b.x) ^ 2 + (a.y - b.y) ^ 2

/-- `validator.py` lines 25-37, one unit of the bounds/terrain loop:
out-of-bounds units get the out-of-bounds error and `continue`; in-bounds
units are looked up in the terrain (inside `try`), an `IndexError` (short
row of a ragged grid) is swallowed by `except IndexError: pass`, and a
`WATER` cell yields the water error. -/
def unitPosErrors (t : List (List Int)) (u : Unit) : List String :=
  if ¬ (0 ≤ u.x ∧ u.x < (mapWidth t : Int) ∧ 0 ≤ u.y ∧ u.y < (mapHeight t : Int)) then
    [oobMsg u]
  else
    match pyIndex t u.y with
    | none => []
    | some row =>
        match pyIndex row u.x with
        | none => []
        | some terr => if terr = WATER then [waterMsg u] else []

/-- `validator.py` lines 24-37: the bounds/terrain errors of one frame, in
unit order. -/
def posErrors (t : List (List Int)) (us : List Unit) : List String :=
  us.flatMap (unitPosErrors t)

/-- `validator.py` lines 40-49: the movement-speed errors of one frame with
respect to the previous frame's unit dict, in current-dict order.
`dist > 3.0` for `dist = math.sqrt(d2)` is equivalent to `d2 > 9`. -/
def speedErrors (prev cur : List (String × Unit)) : List String :=
  cur.flatMap (fun p =>
    match dlookup prev p.1 with
    | none => []
    | some q =>
        if 9 < sqDist p.2 q then [tooFastMsg p.2.unit_id (sqDist p.2 q).toNat] else [])

/-- `validator.py` lines 19-52: the frame loop.  Each frame's
`validation_errors` is reset and recomputed (bounds/terrain errors first,
then — from the second frame on — speed errors), and `prev_units` is the
dict built from the previous frame's `unit_positions`. -/
def validate_frames (t : List (List Int)) :
    List (String × Unit) → Nat → List Frame → List Frame
  | _, _, [] => []
  | prev, i, f :: rest =>
      let cur := buildDict f.unit_positions
      { f with validation_errors :=
          posErrors t f.unit_positions ++
            (if 0 < i then speedErrors prev cur else []) }
        :: validate_frames t cur (i + 1) rest

/-- `engine/validator.py` `validate_scenario`: populates each frame's
`validation_errors` in frame order (the Python function mutates the
scenario in place; here the updated scenario is returned). -/
def validate_scenario (s : WargameScenario) : WargameScenario :=
  { s with frames := validate_frames s.terrain_map [] 0 s.frames }

/-! ### The generation retry loop (`engine/ai_handler.py`, `fetch_scenario`) -/

/-- The outcome of one invocation of the external generator
(`client.beta.chat.completions.parse` + pydantic parsing of the response),
classified by the exception hierarchy caught in `fetch_scenario`:
`ok` is a successfully parsed candidate scenario, `otherErr` is any other
exception (in particular a malformed / schema-violating response). -/
inductive GenResult where
  | ok (s : WargameScenario)
  | authErr
  | rateLimitErr
  | connErr
  | apiErr (msg : String)
  | otherErr (msg : String)
deriving DecidableEq

/-- An exception raised by `fetch_scenario`: `ValueError` or `RuntimeError`
with the message built at the corresponding `raise` site. -/
inductive FetchErr where
  | valueError (msg : String)
  | runtimeError (msg : String)
deriving DecidableEq

/-- How a call of `fetch_scenario` ends: a returned scenario or a raised
exception. -/
inductive FetchOutcome where
  | returned (s : WargameScenario)
  | raised (e : FetchErr)
deriving DecidableEq

/-- `ai_handler.py` lines 183-187: the flattened
`"Frame {i+1}: {err}"` list collected over all frames. -/
def collectErrors (s : WargameScenario) : List String :=
  s.frames.enum.flatMap (fun p =>
    p.2.validation_errors.map (fun e => "Frame " ++ toString (p.1 + 1) ++ ": " ++ e))

/-- `ai_handler.py` lines 167-221, the body of
`for attempt in range(max_retries + 1)` with `max_retries = 3`:
`remaining = max_retries - attempt` counts the attempts still allowed after
the current one.  The external generator call is abstracted as a function
of the attempt index (each retry extends the conversation history, so the
generator may answer differently on each attempt); the returned `Nat` is
the number of generator invocations performed.  Transport errors raise
immediately; any other exception raises only when `attempt == max_retries`
(`remaining = 0`) and is otherwise swallowed by the loop; a parsed
candidate is validated, returned when clean, returned as-is on the last
attempt, and otherwise retried with corrective feedback. -/
def fetchAux (gen : Nat → GenResult) : Nat → Nat → Nat × FetchOutcome
  | attempt, remaining =>
    match gen attempt with
    | .authErr =>
        (1, .raised (.valueError "Invalid OpenAI API Key. Please check your credentials."))
    | .rateLimitErr =>
        (1, .raised (.runtimeError "OpenAI API rate limit exceeded. Please try again later."))
    | .connErr =>
        (1, .raised (.runtimeError "Failed to connect to OpenAI API. Please check your internet connection."))
    | .apiErr m =>
        (1, .raised (.runtimeError ("OpenAI API returned an error: " ++ m)))
    | .otherErr m =>
        match remaining with
        | 0 => (1, .raised (.runtimeError
            ("An unexpected error occurred during scenario generation: " ++ m)))
        | r + 1 =>
            let rec_ := fetchAux gen (attempt + 1) r
            (rec_.1 + 1, rec_.2)
    | .ok s0 =>
        let s := validate_scenario s0
        if collectErrors s = [] then (1, .returned s)
        else
          match remaining with
          | 0 => (1, .returned s)
          | r + 1 =>
              let rec_ := fetchAux gen (attempt + 1) r
              (rec_.1 + 1, rec_.2)

/-- `engine/ai_handler.py` `fetch_scenario` (non-mock path): the retry loop
entered at attempt 0 with `max_retries = 3` retries remaining. -/
def fetch_scenario (gen : Nat → GenResult) : Nat × FetchOutcome :=
  fetchAux gen 0 3

/-- Modelled from the spec: `fetch_scenario` in `src/engine/ai_handler.py`
accepts no pre-supplied terrain grid (only a `terrain_type` style string),
so the pinned-grid mode of spec §4.3 — "If a fixed terrain grid was
supplied, overwrite the candidate's terrain with it unconditionally"
before validation and return — has no implementation under `src/`.  This
definition adds that overwrite, faithful to the spec's words, to the
source's retry loop. -/
def fetchAuxPinned (gen : Nat → GenResult) (grid : List (List Int)) :
    Nat → Nat → Nat × FetchOutcome
  | attempt, remaining =>
    match gen attempt with
    | .authErr =>
        (1, .raised (.valueError "Invalid OpenAI API Key. Please check your credentials."))
    | .rateLimitErr =>
        (1, .raised (.runtimeError "OpenAI API rate limit exceeded. Please try again later."))
    | .connErr =>
        (1, .raised (.runtimeError "Failed to connect to OpenAI API. Please check your internet connection."))
    | .apiErr m =>
        (1, .raised (.runtimeError ("OpenAI API returned an error: " ++ m)))
    | .otherErr m =>
        match remaining with
        | 0 => (1, .raised (.runtimeError
            ("An unexpected error occurred during scenario generation: " ++ m)))
        | r + 1 =>
            let rec_ := fetchAuxPinned gen grid (attempt + 1) r
            (rec_.1 + 1, rec_.2)
    | .ok s0 =>
        let s := validate_scenario { s0 with terrain_map := grid }
        if collectErrors s = [] then (1, .returned s)
        else
          match remaining with
          | 0 => (1, .returned s)
          | r + 1 =>
              let rec_ := fetchAuxPinned gen grid (attempt + 1) r
              (rec_.1 + 1, rec_.2)

/-- Modelled from the spec: generation with a pinned terrain grid
(spec §4.3 steps 3-8 with the step-4 overwrite). -/
def fetch_scenario_pinned (gen : Nat → GenResult) (grid : List (List Int)) :
    Nat × FetchOutcome :=
  fetchAuxPinned gen grid 0 3

/-! ### Session / navigation state (`utils/state_manager.py`) -/

/-- The four `st.session_state` keys managed by `utils/state_manager.py`. -/
structure SessionState where
  total_frames_generated : Int
  total_scenarios_run : Int
  current_scenario : Option WargameScenario
  current_frame_index : Int
deriving DecidableEq

/-- `state_manager.py` `initialize_state`: the values installed for
missing keys. -/
def initialize_state : SessionState :=
  { total_frames_generated := 0
    total_scenarios_run := 0
    current_scenario := none
    current_frame_index := 0 }

/-- `state_manager.py` `next_frame`: advance the cursor when a scenario is
present (a pydantic model object is always truthy) and the cursor is below
`len(frames) - 1`. -/
def next_frame (st : SessionState) : SessionState :=
  match st.current_scenario with
  | none => st
  | some sc =>
      if st.current_frame_index < (sc.frames.length : Int) - 1 then
        { st with current_frame_index := st.current_frame_index + 1 }
      else st

/-- `state_manager.py` `prev_frame`: retreat the cursor when a scenario is
present and the cursor is above 0. -/
def prev_frame (st : SessionState) : SessionState :=
  match st.current_scenario with
  | none => st
  | some _sc =>
      if st.current_frame_index > 0 then
        { st with current_frame_index := st.current_frame_index - 1 }
      else st

/-! ### Scenario (de)serialization

`app.py` persists the active scenario with `scenario.model_dump_json()` and
loads one with `WargameScenario.model_validate_json(json_data)`.  The JSON
document is modelled as a structured tree `J`; pydantic's serializer emits
every field (in declaration order, `None` as `null`), and its validator
looks fields up by name (order-insensitively), applies the declared
defaults for missing optional fields, and rejects missing required fields,
wrongly-typed values and constraint violations (`MalformedScenario`,
here `none`). -/

/-- A structured JSON document. -/
inductive J where
  | null
  | jb (b : Bool)
  | ji (n : Int)
  | js (s : String)
  | ja (xs : List J)
  | jo (fields : List (String × J))

/-- Field lookup in a JSON object. -/
def jlookup : List (String × J) → String → Option J
  | [], _ => none
  | (k0, v0) :: rest, k => if k0 = k then some v0 else jlookup rest k

/-- A JSON value as a string, else a type error. -/
def asStr : J → Option String
  | .js s => some s
  | _ => none

/-- A JSON value as an integer, else a type error. -/
def asInt : J → Option Int
  | .ji n => some n
  | _ => none

/-- A JSON value as an array, else a type error. -/
def asArr : J → Option (List J)
  | .ja xs => some xs
  | _ => none

/-- A JSON value as an object, else a type error. -/
def asObj : J → Option (List (String × J))
  | .jo fs => some fs
  | _ => none

/-- Parse every element of a list, failing fast (pydantic list validation). -/
def omapM {α β : Type} (g : α → Option β) : List α → Option (List β)
  | [] => some []
  | x :: xs => (g x).bind fun y => (omapM g xs).bind fun ys => some (y :: ys)

/-- A required string field. -/
def strField (fs : List (String × J)) (k : String) : Option String :=
  (jlookup fs k).bind asStr

/-- A required integer field. -/
def intField (fs : List (String × J)) (k : String) : Option Int :=
  (jlookup fs k).bind asInt

/-- An integer field with a declared default for a missing key. -/
def intFieldD (fs : List (String × J)) (k : String) (d : Int) : Option Int :=
  match jlookup fs k with
  | none => some d
  | some v => asInt v

/-- A string field with a declared default for a missing key. -/
def strFieldD (fs : List (String × J)) (k : String) (d : String) : Option String :=
  match jlookup fs k with
  | none => some d
  | some v => asStr v

/-- An `Optional[str]` field: missing or `null` is `None`. -/
def optStrField (fs : List (String × J)) (k : String) : Option (Option String) :=
  match jlookup fs k with
  | none => some none
  | some .null => some none
  | some (.js s) => some (some s)
  | some _ => none

/-- `UnitSide` from its string value. -/
def parseSide : String → Option UnitSide
  | "Blue" => some .blue
  | "Red" => some .red
  | _ => none

/-- `action_type` from its literal string value. -/
def parseAction : String → Option ActionType
  | "Move" => some .move
  | "Fire" => some .fire
  | "Suppression" => some .suppression
  | "Retreat" => some .retreat
  | "Reinforce" => some .reinforce
  | "Intel" => some .intel
  | _ => none

/-- Serialize a `Unit` (pydantic `model_dump`, declaration order). -/
def dumpUnit (u : Unit) : J :=
  .jo [("unit_id", .js u.unit_id), ("side", .js u.side.toStr), ("type", .js u.type),
       ("x", .ji u.x), ("y", .ji u.y), ("health", .ji u.health),
       ("range", .ji u.range), ("status", .js u.status)]

/-- Validate a JSON value as a `Unit` (pydantic field and constraint
validation, with the declared defaults `health=100`, `range=1`,
`status="Active"`). -/
def parseUnit (j : J) : Option Unit :=
  (asObj j).bind fun fs =>
  (strField fs "unit_id").bind fun uid =>
  ((strField fs "side").bind parseSide).bind fun side =>
  (strField fs "type").bind fun ty =>
  (intField fs "x").bind fun x =>
  (intField fs "y").bind fun y =>
  (intFieldD fs "health" 100).bind fun health =>
  (intFieldD fs "range" 1).bind fun rng =>
  (strFieldD fs "status" "Active").bind fun status =>
  mkUnit uid side ty x y health rng status

/-- Serialize a `CombatEvent`. -/
def dumpEvent (e : CombatEvent) : J :=
  .jo [("source_unit_id", .js e.source_unit_id),
       ("target_unit_id", match e.target_unit_id with | none => .null | some s => .js s),
       ("action_type", .js e.action_type.toStr),
       ("details", .js e.details),
       ("outcome", match e.outcome with | none => .null | some s => .js s)]

/-- Validate a JSON value as a `CombatEvent`. -/
def parseEvent (j : J) : Option CombatEvent :=
  (asObj j).bind fun fs =>
  (strField fs "source_unit_id").bind fun src =>
  (optStrField fs "target_unit_id").bind fun tgt =>
  ((strField fs "action_type").bind parseAction).bind fun act =>
  (strField fs "details").bind fun det =>
  (optStrField fs "outcome").bind fun out =>
  some ⟨src, tgt, act, det, out⟩

/-- Serialize a `Frame`. -/
def dumpFrame (f : Frame) : J :=
  .jo [("frame_description", .js f.frame_description),
       ("unit_positions", .ja (f.unit_positions.map dumpUnit)),
       ("combat_log", .ja (f.combat_log.map dumpEvent)),
       ("validation_errors", .ja (f.validation_errors.map .js))]

/-- Validate a JSON value as a `Frame` (`combat_log` and
`validation_errors` default to `[]` when missing). -/
def parseFrame (j : J) : Option Frame :=
  (asObj j).bind fun fs =>
  (strField fs "frame_description").bind fun desc =>
  ((jlookup fs "unit_positions").bind asArr).bind fun uj =>
  (omapM parseUnit uj).bind fun us =>
  (match jlookup fs "combat_log" with
   | none => some []
   | some v => (asArr v).bind (omapM parseEvent)).bind fun log =>
  (match jlookup fs "validation_errors" with
   | none => some []
   | some v => (asArr v).bind (omapM asStr)).bind fun ve =>
  some ⟨desc, us, log, ve⟩

/-- Serialize a `WargameScenario` (`model_dump_json`, as a structured
document). -/
def dumpScenario (s : WargameScenario) : J :=
  .jo [("terrain_map", .ja (s.terrain_map.map (fun row => .ja (row.map .ji)))),
       ("frames", .ja (s.frames.map dumpFrame))]

/-- Validate a JSON document as a `WargameScenario`
(`WargameScenario.model_validate_json`, after lexing). -/
def parseScenario (j : J) : Option WargameScenario :=
  (asObj j).bind fun fs =>
  ((jlookup fs "terrain_map").bind asArr).bind fun tj =>
  (omapM (fun r => (asArr r).bind (omapM asInt)) tj).bind fun t =>
  ((jlookup fs "frames").bind asArr).bind fun fj =>
  (omapM parseFrame fj).bind fun frames =>
  some ⟨t, frames⟩

/-- Every unit of every frame satisfies the pydantic field constraints —
true of every scenario produced by pydantic construction or loading. -/
def validScenario (s : WargameScenario) : Bool :=
  s.frames.all (fun f => f.unit_positions.all validUnit)

/-- A navigation call: `next_frame` or `prev_frame`. -/
inductive NavOp where
  | next
  | prev
deriving DecidableEq

/-- Apply a sequence of navigation calls in order. -/
def applyNav (st : SessionState) (ops : List NavOp) : SessionState :=
  ops.foldl (fun s op => match op with | .next => next_frame s | .prev => prev_frame s) st

/-! ### Concrete sample data used by the witness theorems -/

/-- A 4×4 all-open terrain. -/
def wTer : List (List Int) := [[0,0,0,0],[0,0,0,0],[0,0,0,0],[0,0,0,0]]

/-- A unit at (0,0). -/
def wUnitA : Unit := ⟨"A", .blue, "Tank", 0, 0, 100, 1, "Active"⟩

/-- The same unit id at (3,3): squared displacement 18 > 9. -/
def wUnitA2 : Unit := ⟨"A", .blue, "Tank", 3, 3, 100, 1, "Active"⟩

/-- Frame 1 of the two-frame sample. -/
def wF1 : Frame := ⟨"f1", [wUnitA], [], []⟩

/-- Frame 2 of the two-frame sample. -/
def wF2 : Frame := ⟨"f2", [wUnitA2], [], []⟩

/-- A two-frame scenario in which unit "A" teleports from (0,0) to (3,3). -/
def wSc : WargameScenario := ⟨wTer, [wF1, wF2]⟩

/-- A scenario with an empty terrain grid but a populated frame. -/
def wEmpty : WargameScenario := ⟨[], [wF1]⟩

/-- A scenario that validates cleanly (no units at all). -/
def wClean : WargameScenario := ⟨[[0]], [⟨"d", [], [], []⟩]⟩

/-- A scenario whose single unit is out of bounds (empty terrain), so
validation errors persist on every attempt. -/
def wBad : WargameScenario := ⟨[], [⟨"d", [wUnitA], [], []⟩]⟩

/-- A generator that always parses successfully but never validates. -/
def wGenBad : Nat → GenResult := fun _ => .ok wBad

/-- A generator whose first response is malformed and whose second is a
clean scenario. -/
def wGenBoom : Nat → GenResult := fun i => if i = 0 then .otherErr "boom" else .ok wClean

/-- A generator that always returns the clean scenario. -/
def wGenClean : Nat → GenResult := fun _ => .ok wClean

/-- A 1×1 pinned terrain grid, different from `wClean`'s terrain. -/
def wGrid1 : List (List Int) := [[3]]

/-- A scenario exercising every serialized field. -/
def wRT : WargameScenario :=
  ⟨[[0,1],[2,3]], [⟨"d", [wUnitA], [⟨"A", some "B", .fire, "shot", none⟩], ["e1"]⟩]⟩

/-- A ragged terrain: first row of width 3, second row of width 1. -/
def wRagged : List (List Int) := [[0,0,0],[0]]

/-- A unit at (2,1): in bounds of the 3-wide, 2-high ragged grid, but its
own row has length 1. -/
def wRUnit : Unit := ⟨"R", .red, "Inf", 2, 1, 100, 1, "Active"⟩

/-- A session holding the two-frame sample scenario at cursor 0. -/
def wStateA : SessionState := ⟨0, 0, some wSc, 0⟩

/-! ## Helper lemmas -/

theorem validate_scenario_terrain (s : WargameScenario) :
    (validate_scenario s).terrain_map = s.terrain_map := rfl

theorem validate_scenario_frames (s : WargameScenario) :
    (validate_scenario s).frames = validate_frames s.terrain_map [] 0 s.frames := rfl

theorem validate_frames_head_pos (t : List (List Int)) (prev : List (String × Unit))
    (i : Nat) (hi : 0 < i) (f : Frame) (fs : List Frame) :
    (validate_frames t prev i (f :: fs)).get? 0 =
      some { f with validation_errors := posErrors t f.unit_positions ++
               speedErrors prev (buildDict f.unit_positions) } := by
  simp [validate_frames, hi]

theorem validate_frames_head_zero (t : List (List Int)) (prev : List (String × Unit))
    (f : Frame) (fs : List Frame) :
    (validate_frames t prev 0 (f :: fs)).get? 0 =
      some { f with validation_errors := posErrors t f.unit_positions } := by
  simp [validate_frames]

theorem validate_frames_get_succ (t : List (List Int)) (fs : List Frame) :
    ∀ (prev : List (String × Unit)) (i j : Nat) (fp fc : Frame),
      fs.get? j = some fp → fs.get? (j + 1) = some fc →
      (validate_frames t prev i fs).get? (j + 1) =
        some { fc with validation_errors := posErrors t fc.unit_positions ++
                 speedErrors (buildDict fp.unit_positions) (buildDict fc.unit_positions) } := by
  induction fs with
  | nil => intro prev i j fp fc h1 _; simp at h1
  | cons f rest ih =>
    intro prev i j fp fc h1 h2
    cases j with
    | zero =>
      simp only [List.get?_cons_zero, Option.some.injEq] at h1
      simp only [List.get?_cons_succ] at h2
      subst h1
      cases rest with
      | nil => simp at h2
      | cons g rest2 =>
        simp only [List.get?_cons_zero, Option.some.injEq] at h2
        subst h2
        show (validate_frames t prev i (f :: g :: rest2)).get? 1 = _
        simp only [validate_frames, List.get?_cons_succ]
        exact validate_frames_head_pos t _ (i + 1) (Nat.succ_pos i) g rest2
    | succ j' =>
      simp only [List.get?_cons_succ] at h1 h2
      simp only [validate_frames, List.get?_cons_succ]
      exact ih _ (i + 1) j' fp fc h1 h2

theorem validate_frames_idem (t : List (List Int)) (fs : List Frame) :
    ∀ (prev : List (String × Unit)) (i : Nat),
      validate_frames t prev i (validate_frames t prev i fs) =
        validate_frames t prev i fs := by
  induction fs with
  | nil => intro prev i; rfl
  | cons f rest ih =>
    intro prev i
    simp only [validate_frames]
    exact congrArg _ (ih _ (i + 1))

theorem unitPosErrors_nil_terrain (u : Unit) : unitPosErrors [] u = [oobMsg u] := by
  rw [unitPosErrors, if_pos]
  rintro ⟨h1, h2, -⟩
  simp only [mapWidth] at h2
  omega

theorem posErrors_nil_terrain (us : List Unit) : posErrors [] us = us.map oobMsg := by
  induction us with
  | nil => rfl
  | cons u rest ih =>
    simp only [posErrors, List.flatMap_cons, unitPosErrors_nil_terrain, List.map_cons]
    simpa [posErrors] using congrArg (oobMsg u :: ·) ih

theorem pyIndex_short {α : Type} (l : List α) (i : Int) (h0 : 0 ≤ i)
    (hlen : (l.length : Int) ≤ i) : pyIndex l i = none := by
  rw [pyIndex, if_pos h0]
  exact List.get?_eq_none.mpr (by omega)

theorem next_frame_scenario (st : SessionState) :
    (next_frame st).current_scenario = st.current_scenario := by
  cases h : st.current_scenario with
  | none => simp [next_frame, h]
  | some sc => simp only [next_frame, h]; split <;> simp [h]

theorem prev_frame_scenario (st : SessionState) :
    (prev_frame st).current_scenario = st.current_scenario := by
  cases h : st.current_scenario with
  | none => simp [prev_frame, h]
  | some sc => simp only [prev_frame, h]; split <;> simp [h]

theorem next_frame_bound (st : SessionState) (sc : WargameScenario)
    (h1 : st.current_scenario = some sc) (h2 : 0 ≤ st.current_frame_index)
    (h3 : st.current_frame_index < (sc.frames.length : Int)) :
    0 ≤ (next_frame st).current_frame_index ∧
    (next_frame st).current_frame_index < (sc.frames.length : Int) := by
  simp only [next_frame, h1]
  split
  · exact ⟨by simp; omega, by simp; omega⟩
  · exact ⟨h2, h3⟩

theorem prev_frame_bound (st : SessionState) (sc : WargameScenario)
    (h1 : st.current_scenario = some sc) (h2 : 0 ≤ st.current_frame_index)
    (h3 : st.current_frame_index < (sc.frames.length : Int)) :
    0 ≤ (prev_frame st).current_frame_index ∧
    (prev_frame st).current_frame_index < (sc.frames.length : Int) := by
  simp only [prev_frame, h1]
  split
  · exact ⟨by simp; omega, by simp; omega⟩
  · exact ⟨h2, h3⟩

theorem applyNav_inv (ops : List NavOp) : ∀ (st : SessionState) (sc : WargameScenario),
    st.current_scenario = some sc → 0 ≤ st.current_frame_index →
    st.current_frame_index < (sc.frames.length : Int) →
    (applyNav st ops).current_scenario = some sc ∧
    0 ≤ (applyNav st ops).current_frame_index ∧
    (applyNav st ops).current_frame_index < (sc.frames.length : Int) := by
  induction ops with
  | nil => intro st sc h1 h2 h3; exact ⟨h1, h2, h3⟩
  | cons op rest ih =>
    intro st sc h1 h2 h3
    cases op with
    | next =>
      have hb := next_frame_bound st sc h1 h2 h3
      exact ih (next_frame st) sc (by rw [next_frame_scenario, h1]) hb.1 hb.2
    | prev =>
      have hb := prev_frame_bound st sc h1 h2 h3
      exact ih (prev_frame st) sc (by rw [prev_frame_scenario, h1]) hb.1 hb.2

theorem fetchAux_count (gen : Nat → GenResult) :
    ∀ (r a : Nat), (fetchAux gen a r).1 ≤ r + 1 := by
  intro r
  induction r with
  | zero =>
    intro a
    rw [fetchAux]
    cases hg : gen a with
    | ok s =>
      simp only [hg]
      split <;> simp
    | authErr => simp [hg]
    | rateLimitErr => simp [hg]
    | connErr => simp [hg]
    | apiErr m => simp [hg]
    | otherErr m => simp [hg]
  | succ r ih =>
    intro a
    rw [fetchAux]
    cases hg : gen a with
    | ok s =>
      simp only [hg]
      try dsimp only
      split
      · simp
      · try dsimp only
        have := ih (a + 1); omega
    | authErr => simp [hg]
    | rateLimitErr => simp [hg]
    | connErr => simp [hg]
    | apiErr m => simp [hg]
    | otherErr m =>
      simp only [hg]
      try dsimp only
      have := ih (a + 1)
      omega

theorem fetchAux_allok (gen : Nat → GenResult) :
    ∀ (r a : Nat), (∀ i, a ≤ i → i ≤ a + r → ∃ s, gen i = GenResult.ok s) →
      ∃ i s, a ≤ i ∧ i ≤ a + r ∧ gen i = GenResult.ok s ∧
        (fetchAux gen a r).2 = FetchOutcome.returned (validate_scenario s) := by
  intro r
  induction r with
  | zero =>
    intro a h
    obtain ⟨s, hs⟩ := h a le_rfl (by omega)
    refine ⟨a, s, le_rfl, by omega, hs, ?_⟩
    rw [fetchAux, hs]
    try dsimp only
    split <;> rfl
  | succ r ih =>
    intro a h
    obtain ⟨s, hs⟩ := h a le_rfl (by omega)
    by_cases hc : collectErrors (validate_scenario s) = []
    · refine ⟨a, s, le_rfl, by omega, hs, ?_⟩
      rw [fetchAux, hs]
      try dsimp only
      rw [if_pos hc]
    · obtain ⟨i, s', hi1, hi2, hi3, hi4⟩ := ih (a + 1) (fun i u1 u2 => h i (by omega) (by omega))
      refine ⟨i, s', by omega, by omega, hi3, ?_⟩
      rw [fetchAux, hs]
      try dsimp only
      rw [if_neg hc]
      exact hi4

/-! ## Claim theorems -/

/-- Claim C1: for every scenario, the first frame never receives a speed
error (its recomputed error list is exactly the bounds/terrain errors), and
every later frame's recomputed error list is the bounds/terrain errors
followed by exactly one "moved too fast" error — naming the unit id and the
Euclidean distance formatted to two decimal places — for each unit id of
the frame's unit dict whose id also appears in the immediately preceding
frame's unit dict with squared displacement strictly greater than 9
(i.e. Euclidean distance strictly greater than 3.0); unit ids with no
counterpart in the previous frame contribute no speed error. -/
theorem claim_C1 (s : WargameScenario) :
    (∀ f0, s.frames.get? 0 = some f0 →
      (validate_scenario s).frames.get? 0 =
        some { f0 with validation_errors := posErrors s.terrain_map f0.unit_positions }) ∧
    (∀ (i : Nat) (fp fc : Frame), s.frames.get? i = some fp →
      s.frames.get? (i + 1) = some fc →
      (validate_scenario s).frames.get? (i + 1) =
        some { fc with validation_errors := posErrors s.terrain_map fc.unit_positions ++
                 (buildDict fc.unit_positions).flatMap (fun p =>
                   match dlookup (buildDict fp.unit_positions) p.1 with
                   | none => []
                   | some q =>
                       if 9 < sqDist p.2 q then
                         [tooFastMsg p.2.unit_id (sqDist p.2 q).toNat]
                       else []) }) := by
  constructor
  · intro f0 h0
    rcases hf : s.frames with - | ⟨a, rest⟩
    · rw [hf] at h0; exact absurd h0 (by simp)
    · rw [hf] at h0
      simp only [List.get?_cons_zero, Option.some.injEq] at h0
      subst h0
      rw [validate_scenario_frames, hf]
      exact validate_frames_head_zero _ _ _ _
  · intro i fp fc h1 h2
    rw [validate_scenario_frames]
    exact validate_frames_get_succ s.terrain_map s.frames [] 0 i fp fc h1 h2

/-- Witness for C1 at the concrete two-frame scenario `wSc` (unit "A"
jumps from (0,0) to (3,3), squared distance 18 > 9). -/
theorem claim_C1_witness :
    (validate_scenario wSc).frames.get? 0 =
      some { wF1 with validation_errors := posErrors wSc.terrain_map wF1.unit_positions } ∧
    (validate_scenario wSc).frames.get? 1 =
      some { wF2 with validation_errors := posErrors wSc.terrain_map wF2.unit_positions ++
               (buildDict wF2.unit_positions).flatMap (fun p =>
                 match dlookup (buildDict wF1.unit_positions) p.1 with
                 | none => []
                 | some q =>
                     if 9 < sqDist p.2 q then
                       [tooFastMsg p.2.unit_id (sqDist p.2 q).toNat]
                     else []) } :=
  ⟨(claim_C1 wSc).1 wF1 rfl, (claim_C1 wSc).2 0 wF1 wF2 rfl rfl⟩

/-- Claim C4: `validate_scenario` is idempotent — a second run reproduces
the same scenario (in particular every frame's `validation_errors`),
because each run clears and recomputes the error lists from data the run
never changes. -/
theorem claim_C4 (s : WargameScenario) :
    validate_scenario (validate_scenario s) = validate_scenario s := by
  obtain ⟨t, fs⟩ := s
  show WargameScenario.mk t (validate_frames t [] 0 (validate_frames t [] 0 fs)) =
       WargameScenario.mk t (validate_frames t [] 0 fs)
  rw [validate_frames_idem]

/-- Claim C7: on a scenario with an empty terrain grid, `validate_scenario`
treats width and height as 0 and terminates normally (it is a total
function here, matching the absence of any raise in the source): every
unit of every frame receives exactly its out-of-bounds error and no
terrain-collision error, followed only by the movement-speed errors from
the second frame on. -/
theorem claim_C7 (s : WargameScenario) (h : s.terrain_map = []) :
    (∀ f0, s.frames.get? 0 = some f0 →
      (validate_scenario s).frames.get? 0 =
        some { f0 with validation_errors := f0.unit_positions.map oobMsg }) ∧
    (∀ (i : Nat) (fp fc : Frame), s.frames.get? i = some fp →
      s.frames.get? (i + 1) = some fc →
      (validate_scenario s).frames.get? (i + 1) =
        some { fc with validation_errors := fc.unit_positions.map oobMsg ++
                 speedErrors (buildDict fp.unit_positions) (buildDict fc.unit_positions) }) := by
  constructor
  · intro f0 h0
    rcases hf : s.frames with - | ⟨a, rest⟩
    · rw [hf] at h0; exact absurd h0 (by simp)
    · rw [hf] at h0
      simp only [List.get?_cons_zero, Option.some.injEq] at h0
      subst h0
      rw [validate_scenario_frames, hf, h, validate_frames_head_zero, posErrors_nil_terrain]
  · intro i fp fc h1 h2
    rw [validate_scenario_frames, h,
      validate_frames_get_succ [] s.frames [] 0 i fp fc h1 h2, posErrors_nil_terrain]

/-- Witness for C7 at the concrete empty-terrain scenario `wEmpty`. -/
theorem claim_C7_witness :
    (validate_scenario wEmpty).frames.get? 0 =
      some { wF1 with validation_errors := wF1.unit_positions.map oobMsg } :=
  (claim_C7 wEmpty rfl).1 wF1 rfl

/-- Claim C10: on a ragged terrain grid the bounds check compares a unit's
x against the first row's width; when the unit's own row is too short the
terrain lookup's `IndexError` is silently swallowed, so the unit receives
no bounds/terrain error at all, and `validate_scenario` (a total function,
matching the absence of any raise in the source) leaves a one-frame
scenario holding only that unit entirely unchanged. -/
theorem claim_C10 (t : List (List Int)) (u : Unit) (row : List Int)
    (hx0 : 0 ≤ u.x) (hxw : u.x < (mapWidth t : Int))
    (hy0 : 0 ≤ u.y) (hyh : u.y < (mapHeight t : Int))
    (hrow : pyIndex t u.y = some row) (hshort : (row.length : Int) ≤ u.x) :
    unitPosErrors t u = [] ∧
    ∀ d, validate_scenario ⟨t, [⟨d, [u], [], []⟩]⟩ = ⟨t, [⟨d, [u], [], []⟩]⟩ := by
  have hcond : 0 ≤ u.x ∧ u.x < (mapWidth t : Int) ∧ 0 ≤ u.y ∧ u.y < (mapHeight t : Int) :=
    ⟨hx0, hxw, hy0, hyh⟩
  have hu : unitPosErrors t u = [] := by
    simp only [unitPosErrors, if_neg (not_not_intro hcond), hrow,
      pyIndex_short row u.x hx0 hshort]
  refine ⟨hu, fun d => ?_⟩
  simp [validate_scenario, validate_frames, posErrors, hu]

theorem omapM_map {α β : Type} (g : β → Option α) (f : α → β) (xs : List α)
    (h : ∀ x ∈ xs, g (f x) = some x) : omapM g (xs.map f) = some xs := by
  induction xs with
  | nil => rfl
  | cons x rest ih =>
    simp only [List.map_cons, omapM, h x (by simp)]
    rw [ih (fun y hy => h y (by simp [hy]))]
    rfl

theorem omapM_js (xs : List String) : omapM asStr (xs.map J.js) = some xs :=
  omapM_map asStr J.js xs (fun _ _ => rfl)

theorem omapM_ji (xs : List Int) : omapM asInt (xs.map J.ji) = some xs :=
  omapM_map asInt J.ji xs (fun _ _ => rfl)

theorem parseUnit_dump (u : Unit) (h : validUnit u = true) :
    parseUnit (dumpUnit u) = some u := by
  obtain ⟨uid, side, ty, x, y, hl, rg, stt⟩ := u
  cases side <;>
    simp [parseUnit, dumpUnit, asObj, strField, intField, intFieldD, strFieldD,
      jlookup, asStr, asInt, parseSide, UnitSide.toStr, mkUnit, h]

theorem parseEvent_dump (e : CombatEvent) : parseEvent (dumpEvent e) = some e := by
  obtain ⟨src, tgt, act, det, out⟩ := e
  cases act <;> cases tgt <;> cases out <;>
    simp [parseEvent, dumpEvent, asObj, strField, optStrField, jlookup, asStr,
      parseAction, ActionType.toStr]

theorem parseFrame_dump (f : Frame) (h : f.unit_positions.all validUnit = true) :
    parseFrame (dumpFrame f) = some f := by
  obtain ⟨desc, us, log, ve⟩ := f
  simp only [List.all_eq_true] at h
  show (omapM parseUnit (us.map dumpUnit)).bind (fun us' =>
      (omapM parseEvent (log.map dumpEvent)).bind (fun log' =>
        (omapM asStr (ve.map J.js)).bind (fun ve' =>
          some (Frame.mk desc us' log' ve')))) = some (Frame.mk desc us log ve)
  rw [omapM_map parseUnit dumpUnit us (fun u hu => parseUnit_dump u (h u hu)),
    omapM_map parseEvent dumpEvent log (fun e _ => parseEvent_dump e), omapM_js]
  rfl

theorem parseRow_dump (row : List Int) :
    (asArr (J.ja (row.map J.ji))).bind (omapM asInt) = some row := by
  show omapM asInt (row.map J.ji) = some row
  exact omapM_ji row

/-- Claim C8: serialization round-trips — parsing the serialized form of
any (constraint-respecting, as every pydantic-constructed scenario is)
scenario yields that very scenario (same terrain, same frames including
combat logs and `validation_errors`), and parsing then re-serializing
reproduces the original structured document. -/
theorem claim_C8 (s : WargameScenario) (h : validScenario s = true) :
    parseScenario (dumpScenario s) = some s ∧
    (parseScenario (dumpScenario s)).map dumpScenario = some (dumpScenario s) := by
  have h1 : parseScenario (dumpScenario s) = some s := by
    obtain ⟨t, fs⟩ := s
    simp only [validScenario, List.all_eq_true] at h
    show (omapM (fun r => (asArr r).bind (omapM asInt))
        (t.map (fun row => J.ja (row.map J.ji)))).bind
        (fun t' => (omapM parseFrame (fs.map dumpFrame)).bind (fun fs' =>
          some (WargameScenario.mk t' fs'))) = some (WargameScenario.mk t fs)
    rw [omapM_map (fun r => (asArr r).bind (omapM asInt))
        (fun row => J.ja (row.map J.ji)) t (fun row _ => parseRow_dump row),
      omapM_map parseFrame dumpFrame fs (fun f hf =>
        parseFrame_dump f (List.all_eq_true.mpr (h f hf)))]
    rfl
  exact ⟨h1, by rw [h1]; rfl⟩

/-- Witness for C8 at the concrete scenario `wRT`, which exercises every
serialized field (terrain codes, a unit, a combat event with a present and
an absent optional field, a validation error). -/
theorem claim_C8_witness :
    validScenario wRT = true ∧ parseScenario (dumpScenario wRT) = some wRT :=
  ⟨by decide, (claim_C8 wRT (by decide)).1⟩

theorem fetchAux_exhaust (gen : Nat → GenResult) :
    ∀ (r a : Nat),
      (∀ i, a ≤ i → i ≤ a + r → ∃ s, gen i = GenResult.ok s ∧
        collectErrors (validate_scenario s) ≠ []) →
      ∃ s, gen (a + r) = GenResult.ok s ∧
        fetchAux gen a r = (r + 1, FetchOutcome.returned (validate_scenario s)) := by
  intro r
  induction r with
  | zero =>
    intro a h
    obtain ⟨s, hs, hc⟩ := h a le_rfl (by omega)
    refine ⟨s, by simpa using hs, ?_⟩
    rw [fetchAux, hs]
    try dsimp only
    rw [if_neg hc]
  | succ r ih =>
    intro a h
    obtain ⟨s, hs, hc⟩ := h a le_rfl (by omega)
    obtain ⟨s', hs', hfx⟩ := ih (a + 1) (fun i u1 u2 => h i (by omega) (by omega))
    refine ⟨s', by rw [show a + (r + 1) = a + 1 + r by omega]; exact hs', ?_⟩
    rw [fetchAux, hs]
    try dsimp only
    rw [if_neg hc, hfx]

/-- Claim C2: the retry loop makes at most 4 generator invocations; when
every attempt parses successfully the loop returns (never raises) the
validated candidate of some attempt with its `validation_errors`
annotations intact; and when every attempt parses successfully but keeps
failing validation, all 4 attempts are used and the loop returns the last
candidate with its error annotations intact rather than raising. -/
theorem claim_C2 (gen : Nat → GenResult) :
    (fetch_scenario gen).1 ≤ 4 ∧
    ((∀ i, i ≤ 3 → ∃ s, gen i = GenResult.ok s) →
      ∃ i s, i ≤ 3 ∧ gen i = GenResult.ok s ∧
        (fetch_scenario gen).2 = FetchOutcome.returned (validate_scenario s)) ∧
    ((∀ i, i ≤ 3 → ∃ s, gen i = GenResult.ok s ∧
        collectErrors (validate_scenario s) ≠ []) →
      ∃ s, gen 3 = GenResult.ok s ∧
        fetch_scenario gen = (4, FetchOutcome.returned (validate_scenario s))) := by
  refine ⟨fetchAux_count gen 3 0, fun h => ?_, fun h => ?_⟩
  · obtain ⟨i, s, _, h2, h3, h4⟩ := fetchAux_allok gen 3 0 (fun i _ u2 => h i (by omega))
    exact ⟨i, s, by omega, h3, h4⟩
  · obtain ⟨s, hs, hfx⟩ := fetchAux_exhaust gen 3 0 (fun i _ u2 => h i (by omega))
    exact ⟨s, by simpa using hs, hfx⟩

/-- Witness for C2 at the generator `wGenBad`, whose candidate always
carries validation errors: the loop still returns a scenario. -/
theorem claim_C2_witness :
    (fetch_scenario wGenBad).1 ≤ 4 ∧
    (∃ s, wGenBad 3 = GenResult.ok s ∧
      fetch_scenario wGenBad = (4, FetchOutcome.returned (validate_scenario s))) :=
  ⟨(claim_C2 wGenBad).1,
   (claim_C2 wGenBad).2.2 (fun _ _ => ⟨wBad, rfl, by decide⟩)⟩

/-- Counterexample to claim C5: a malformed generator response on the first
attempt is NOT surfaced immediately — it is swallowed and the loop retries:
with a malformed first response and a clean second response,
`fetch_scenario` performs 2 invocations and returns the second candidate
instead of raising. -/
theorem claim_C5_counterexample :
    fetch_scenario wGenBoom = (2, FetchOutcome.returned (validate_scenario wClean)) := by
  rfl

/-- Claim C5 as amended: authentication, rate-limit, connectivity and
backend (`APIError`) failures of a generator invocation are surfaced
immediately as errors, after exactly that one invocation, and are never
retried; a malformed/unparseable response (any other exception) is instead
retried while retry budget remains, and is surfaced as an error only when
it occurs on the last attempt. -/
theorem claim_C5_amended (gen : Nat → GenResult) (a r : Nat) :
    (gen a = GenResult.authErr → fetchAux gen a r =
      (1, .raised (.valueError "Invalid OpenAI API Key. Please check your credentials."))) ∧
    (gen a = GenResult.rateLimitErr → fetchAux gen a r =
      (1, .raised (.runtimeError "OpenAI API rate limit exceeded. Please try again later."))) ∧
    (gen a = GenResult.connErr → fetchAux gen a r =
      (1, .raised (.runtimeError "Failed to connect to OpenAI API. Please check your internet connection."))) ∧
    (∀ m, gen a = GenResult.apiErr m → fetchAux gen a r =
      (1, .raised (.runtimeError ("OpenAI API returned an error: " ++ m)))) ∧
    (∀ m, gen a = GenResult.otherErr m → fetchAux gen a 0 =
      (1, .raised (.runtimeError
        ("An unexpected error occurred during scenario generation: " ++ m)))) ∧
    (∀ m r0, gen a = GenResult.otherErr m →
      (fetchAux gen a (r0 + 1)).2 = (fetchAux gen (a + 1) r0).2) := by
  refine ⟨fun h => ?_, fun h => ?_, fun h => ?_, fun m h => ?_, fun m h => ?_,
    fun m r0 h => ?_⟩ <;>
    rw [fetchAux, h]

/-- Witness for C5 (amended) : an authentication failure raises at once;
a malformed first response hands control to the next attempt. -/
theorem claim_C5_witness :
    fetchAux (fun _ => GenResult.authErr) 0 3 =
      (1, .raised (.valueError "Invalid OpenAI API Key. Please check your credentials.")) ∧
    (fetchAux wGenBoom 0 (2 + 1)).2 = (fetchAux wGenBoom (0 + 1) 2).2 :=
  ⟨(claim_C5_amended (fun _ => GenResult.authErr) 0 3).1 rfl,
   (claim_C5_amended wGenBoom 0 0).2.2.2.2.2 "boom" 2 rfl⟩

theorem fetchAuxPinned_terrain (gen : Nat → GenResult) (grid : List (List Int)) :
    ∀ (r a : Nat) (s : WargameScenario),
      (fetchAuxPinned gen grid a r).2 = FetchOutcome.returned s →
      s.terrain_map = grid := by
  intro r
  induction r with
  | zero =>
    intro a s h
    rw [fetchAuxPinned] at h
    cases hg : gen a with
    | ok s0 =>
      rw [hg] at h
      dsimp only at h
      split at h
      · simp only [FetchOutcome.returned.injEq] at h
        subst h
        rw [validate_scenario_terrain]
      · simp only [FetchOutcome.returned.injEq] at h
        subst h
        rw [validate_scenario_terrain]
    | authErr => rw [hg] at h; simp at h
    | rateLimitErr => rw [hg] at h; simp at h
    | connErr => rw [hg] at h; simp at h
    | apiErr m => rw [hg] at h; simp at h
    | otherErr m => rw [hg] at h; simp at h
  | succ r ih =>
    intro a s h
    rw [fetchAuxPinned] at h
    cases hg : gen a with
    | ok s0 =>
      rw [hg] at h
      dsimp only at h
      split at h
      · simp only [FetchOutcome.returned.injEq] at h
        subst h
        rw [validate_scenario_terrain]
      · dsimp only at h
        exact ih (a + 1) s h
    | authErr => rw [hg] at h; simp at h
    | rateLimitErr => rw [hg] at h; simp at h
    | connErr => rw [hg] at h; simp at h
    | apiErr m => rw [hg] at h; simp at h
    | otherErr m =>
      rw [hg] at h
      dsimp only at h
      exact ih (a + 1) s h

/-- Claim C3 (spec-modelled): when generation is invoked with a pinned
terrain grid, the returned scenario's terrain equals that grid — the
candidate's terrain is unconditionally overwritten with the supplied grid
before validation and return on every attempt. -/
theorem claim_C3 (gen : Nat → GenResult) (grid : List (List Int)) (s : WargameScenario)
    (h : (fetch_scenario_pinned gen grid).2 = FetchOutcome.returned s) :
    s.terrain_map = grid :=
  fetchAuxPinned_terrain gen grid 3 0 s h

/-- Witness for C3: the generator produces terrain `[[0]]`, the pinned grid
is `[[3]]`, and the returned scenario carries the pinned grid. -/
theorem claim_C3_witness :
    (validate_scenario { wClean with terrain_map := wGrid1 }).terrain_map = wGrid1 :=
  claim_C3 wGenClean wGrid1 (validate_scenario { wClean with terrain_map := wGrid1 }) rfl

/-- Claim C6 is false as stated: a unit with a negative coordinate can be
neither constructed nor deserialized — pydantic's `ge=0` field constraints
reject `x = -1` at construction (`mkUnit` = `none`) and at parsing. -/
theorem claim_C6_counterexample :
    mkUnit "U1" UnitSide.blue "Tank" (-1) 0 100 1 "Active" = none ∧
    parseUnit (J.jo [("unit_id", J.js "U1"), ("side", J.js "Blue"), ("type", J.js "Tank"),
      ("x", J.ji (-1)), ("y", J.ji 0)]) = none :=
  ⟨rfl, rfl⟩

/-- Claim C6 as amended: only the upper coordinate bounds are unenforced at
construction — a unit whose x (or y) is non-negative but at least the grid
dimension can be constructed, and such a unit is reported solely as an
out-of-bounds validation error by `validate_scenario`; negative
coordinates are rejected at construction by the `ge=0` field constraints. -/
theorem claim_C6_amended (uid : String) (side : UnitSide) (ty : String) (x y : Int)
    (t : List (List Int)) (d : String)
    (hx : 0 ≤ x) (hy : 0 ≤ y) (hxw : (mapWidth t : Int) ≤ x) :
    ∃ u, mkUnit uid side ty x y 100 1 "Active" = some u ∧
      validate_scenario ⟨t, [⟨d, [u], [], []⟩]⟩ = ⟨t, [⟨d, [u], [], [oobMsg u]⟩]⟩ := by
  refine ⟨⟨uid, side, ty, x, y, 100, 1, "Active"⟩, ?_, ?_⟩
  · simp [mkUnit, validUnit, hx, hy]
  · have hu : unitPosErrors t ⟨uid, side, ty, x, y, 100, 1, "Active"⟩ =
        [oobMsg ⟨uid, side, ty, x, y, 100, 1, "Active"⟩] := by
      rw [unitPosErrors, if_pos]
      rintro ⟨-, h2, -⟩
      dsimp only at h2
      omega
    simp [validate_scenario, validate_frames, posErrors, hu]

/-- Witness for C6 (amended) at a 2-wide grid and a unit at x = 5. -/
theorem claim_C6_witness :
    ∃ u, mkUnit "U1" UnitSide.blue "Tank" 5 0 100 1 "Active" = some u ∧
      validate_scenario ⟨[[0, 0]], [⟨"d", [u], [], []⟩]⟩ =
        ⟨[[0, 0]], [⟨"d", [u], [], [oobMsg u]⟩]⟩ :=
  claim_C6_amended "U1" UnitSide.blue "Tank" 5 0 [[0, 0]] "d"
    (by decide) (by decide) (by decide)

/-- Claim C9: with an active scenario and a cursor inside
`[0, frame_count - 1]`, every sequence of `next_frame`/`prev_frame` calls
keeps the cursor inside `[0, frame_count - 1]`; a `next_frame` at the last
frame and a `prev_frame` at frame 0 leave the whole session unchanged.
Both operations are total functions (matching the absence of any raise in
the source). -/
theorem claim_C9 (st : SessionState) (sc : WargameScenario)
    (hsc : st.current_scenario = some sc)
    (h0 : 0 ≤ st.current_frame_index)
    (hn : st.current_frame_index < (sc.frames.length : Int)) :
    (∀ ops : List NavOp,
      0 ≤ (applyNav st ops).current_frame_index ∧
      (applyNav st ops).current_frame_index < (sc.frames.length : Int)) ∧
    (st.current_frame_index = (sc.frames.length : Int) - 1 → next_frame st = st) ∧
    (st.current_frame_index = 0 → prev_frame st = st) := by
  refine ⟨fun ops => ⟨(applyNav_inv ops st sc hsc h0 hn).2.1,
    (applyNav_inv ops st sc hsc h0 hn).2.2⟩, ?_, ?_⟩
  · intro hend
    simp only [next_frame, hsc]
    rw [if_neg (by omega)]
  · intro hzero
    simp only [prev_frame, hsc]
    rw [if_neg (by omega)]

/-- Witness for C9 at the concrete session `wStateA` (two-frame scenario,
cursor 0). -/
theorem claim_C9_witness :
    (∀ ops : List NavOp,
      0 ≤ (applyNav wStateA ops).current_frame_index ∧
      (applyNav wStateA ops).current_frame_index < (wSc.frames.length : Int)) ∧
    (wStateA.current_frame_index = (wSc.frames.length : Int) - 1 → next_frame wStateA = wStateA) ∧
    (wStateA.current_frame_index = 0 → prev_frame wStateA = wStateA) :=
  claim_C9 wStateA wSc rfl (by decide) (by decide)

/-- Witness for C10 at the concrete ragged grid `wRagged` with unit `wRUnit`
at (2,1): in bounds of the 3-wide header row, but row 1 has length 1. -/
theorem claim_C10_witness :
    unitPosErrors wRagged wRUnit = [] ∧
    validate_scenario ⟨wRagged, [⟨"f", [wRUnit], [], []⟩]⟩ =
      ⟨wRagged, [⟨"f", [wRUnit], [], []⟩]⟩ :=
  ⟨(claim_C10 wRagged wRUnit [0] (by decide) (by decide) (by decide) (by decide)
      (by rfl) (by decide)).1,
   (claim_C10 wRagged wRUnit [0] (by decide) (by decide) (by decide) (by decide)
      (by rfl) (by decide)).2 "f"⟩

end Wargame
